import Mathlib

/-!
Verification of `Main.py`, a ticket-availability polling script.

The script periodically fetches an event page, classifies the page text into
one of three status strings, compares with a persisted last status, sends a
Telegram notification (throttled by a 30-minute cooldown), persists state,
and sleeps with exponential backoff on errors.

The embedding below mirrors the Python source:
  * the pure text classification of `check_ticket_availability` (lines 52-65);
  * the fetch/parse error handling of `check_ticket_availability`
    (lines 35-74), with the HTTP layer's observable outcomes as an inductive
    type and `requests`' `raise_for_status` modelled by its documented
    behaviour (it raises exactly for status codes 400-599);
  * `read_last_status` (lines 76-88) over an abstract file state;
  * `send_telegram_notification` (lines 115-135): Python exceptions are
    embedded as `Except`, with the surrounding `try/except` as a total
    wrapper; wall-clock time is seconds as `Nat` (`timedelta(minutes=30)`
    is 1800 seconds; a negative Python timedelta is never `> 1800`, and
    truncated `Nat` subtraction gives `0 > 1800 = false`, so the comparison
    agrees);
  * one iteration of the `main` loop body (lines 143-183) as a step function
    on an explicit state, with the per-iteration environment (classification
    outcome or raised exception, current time, delivery success, file-write
    success) as an input.
-/

/-- Python `str.lower()`, per character (the keywords and status strings are
ASCII, where this agrees with Python). -/
def pyLower (s : String) : String :=
  String.mk (s.data.map Char.toLower)

/-- Python whitespace as used by `str.strip()`. -/
def isPySpace (c : Char) : Bool :=
  c == ' ' || c == '\t' || c == '\n' || c == '\r' || c == '\x0b' || c == '\x0c'

/-- Python `str.strip()`: drop leading and trailing whitespace. -/
def pyStrip (s : String) : String :=
  String.mk (((s.data.dropWhile isPySpace).reverse.dropWhile isPySpace).reverse)

/-- `charsBeginWith n h` : the character list `h` starts with `n`. -/
def charsBeginWith : List Char → List Char → Bool
  | [], _ => true
  | _ :: _, [] => false
  | a :: as, b :: bs => a == b && charsBeginWith as bs

/-- `charsContain n h` : `n` occurs as a contiguous run inside `h`
(Python's `needle in haystack` on strings). -/
def charsContain (n : List Char) : List Char → Bool
  | [] => charsBeginWith n []
  | b :: bs => charsBeginWith n (b :: bs) || charsContain n bs

/-- Main.py line 52: the fixed keyword list. -/
def ticket_keywords : List String := ["NEW YEAR", "BUY TICKET", "EVENT TICKET"]

/-- Main.py lines 55-65: classify the fetched page text.  The Python code
tests `keyword.lower() in soup.text.lower()` for each keyword and returns
one of the two non-error status strings. -/
def classify_page_text (text : String) : String :=
  if ticket_keywords.any (fun k => charsContain (pyLower k).data (pyLower text).data)
  then "Tickets Potentially Available"
  else "Tickets Not Available"

/-- The observable outcome of `requests.get` plus HTML parsing: a response
with a status code and body text, or a raised exception (timeout, connection
error, or any other exception during fetch/parse). -/
inductive HttpResult
  | response (statusCode : Nat) (text : String)
  | timeout
  | connectionError
  | otherExn (e : String)
deriving DecidableEq

/-- `requests`' `Response.raise_for_status` (Main.py line 45): raises
`HTTPError` exactly when the status code is in 400-599; 2xx and 3xx
responses pass through. -/
def raise_for_status (code : Nat) : Except String Unit :=
  if 400 ≤ code ∧ code < 600 then Except.error "HTTPError" else Except.ok ()

/-- The body of `check_ticket_availability` (Main.py lines 36-65) before the
two `except` clauses: fetch exceptions and `raise_for_status` propagate as
`Except.error`; otherwise the page text is classified. -/
def check_ticket_availability_body (r : HttpResult) : Except String String :=
  match r with
  | HttpResult.timeout => Except.error "Timeout"
  | HttpResult.connectionError => Except.error "ConnectionError"
  | HttpResult.otherExn e => Except.error e
  | HttpResult.response code text =>
    match raise_for_status code with
    | Except.error e => Except.error e
    | Except.ok _ => Except.ok (classify_page_text text)

/-- Main.py lines 35-74: `check_ticket_availability` with its
`except requests.exceptions.RequestException` / `except Exception` clauses,
both of which return the string `"Error"`. -/
def check_ticket_availability (r : HttpResult) : String :=
  match check_ticket_availability_body r with
  | Except.ok s => s
  | Except.error _ => "Error"

/-- The state of the `last_status.txt` file as seen by `read_last_status`:
missing, present but unreadable (open/read raises), or readable content. -/
inductive StatusFileState
  | absent
  | unreadable (e : String)
  | content (s : String)
deriving DecidableEq

/-- The body of `read_last_status` (Main.py lines 77-85): raises on an
unreadable file, returns `none` for a missing file, and the stripped file
content otherwise. -/
def read_last_status_body : StatusFileState → Except String (Option String)
  | StatusFileState.absent => Except.ok none
  | StatusFileState.unreadable e => Except.error e
  | StatusFileState.content s => Except.ok (some (pyStrip s))

/-- Main.py lines 76-88: `read_last_status` with its `except Exception`
clause returning `None`. -/
def read_last_status (fs : StatusFileState) : Option String :=
  match read_last_status_body fs with
  | Except.ok v => v
  | Except.error _ => none

/-- Main.py lines 122-127: map a status string to the outgoing message
template. -/
def format_notification_text (message : String) : String :=
  if message = "Tickets Potentially Available" then
    "Potential ticket availability detected for the New Year event! Check here: https://fomobaku.com/en/page/events"
  else if message = "Tickets Not Available" then
    "Tickets are currently not available."
  else
    " Status: " ++ message

/-- UTF-8 encoding of one character (Python `str.encode('utf-8')`,
per code point). -/
def utf8Bytes (c : Char) : List Nat :=
  let n := c.toNat
  if n < 0x80 then [n]
  else if n < 0x800 then [0xC0 + n / 0x40, 0x80 + n % 0x40]
  else if n < 0x10000 then
    [0xE0 + n / 0x1000, 0x80 + (n / 0x40) % 0x40, 0x80 + n % 0x40]
  else
    [0xF0 + n / 0x40000, 0x80 + (n / 0x1000) % 0x40,
     0x80 + (n / 0x40) % 0x40, 0x80 + n % 0x40]

/-- Python `bytes.decode('latin-1')`: every byte value maps to the character
with that code point, so this decode never raises. -/
def latin1Decode (bs : List Nat) : List Char :=
  bs.map (fun b => Char.ofNat b)

/-- Main.py line 129: `text.encode('utf-8').decode('latin-1')`. -/
def reencode (s : String) : String :=
  String.mk (latin1Decode (List.flatten (s.data.map utf8Bytes)))

/-- Main.py line 121: `force or not last_notification or
datetime.now() - last_notification > timedelta(minutes=30)`.  Times are in
seconds; `none` is Python `None`. -/
def notification_eligible (force : Bool) (now : Nat) (last : Option Nat) : Bool :=
  force ||
    match last with
    | none => true
    | some t => decide (1800 < now - t)

/-- The observable result of one call to `send_telegram_notification`:
whether a delivery attempt was made, whether it succeeded, the resulting
persisted last-notification time, and the text actually delivered. -/
structure NotifyResult where
  attempted : Bool
  delivered : Bool
  newLast : Option Nat
  deliveredText : Option String
deriving DecidableEq

/-- The body of `send_telegram_notification` (Main.py lines 117-133) before
the `except` clause.  `deliveryOk` is whether `bot.send_message` succeeds;
when it raises, the raise propagates as `Except.error` and the throttle
write on line 130 is not reached. -/
def send_telegram_notification_body (message : String) (force : Bool) (now : Nat)
    (last : Option Nat) (deliveryOk : Bool) : Except String NotifyResult :=
  if notification_eligible force now last then
    if deliveryOk then
      Except.ok { attempted := true, delivered := true, newLast := some now,
                  deliveredText := some (reencode (format_notification_text message)) }
    else
      Except.error "TelegramError"
  else
    Except.ok { attempted := false, delivered := false, newLast := last,
                deliveredText := none }

/-- Main.py lines 115-135: `send_telegram_notification` with its
`except Exception` clause, which only logs; on a caught delivery failure the
last-notification file is unchanged. -/
def send_telegram_notification (message : String) (force : Bool) (now : Nat)
    (last : Option Nat) (deliveryOk : Bool) : NotifyResult :=
  match send_telegram_notification_body message force now last deliveryOk with
  | Except.ok r => r
  | Except.error _ =>
    { attempted := true, delivered := false, newLast := last, deliveredText := none }

/-- The mutable state threaded through iterations of `main`'s `while` loop:
`last_status` and `consecutive_errors` (Main.py lines 139-141) plus the two
persisted files. -/
structure LoopState where
  lastStatus : Option String
  consecutiveErrors : Nat
  lastNotification : Option Nat
  statusFile : Option String
deriving DecidableEq

/-- The environment of one loop iteration: either
`check_ticket_availability` returns a status (with the current time, whether
Telegram delivery succeeds, and whether the status-file write succeeds), or
some exception reaches the loop's catch-all handler (Main.py line 179), or a
`KeyboardInterrupt` arrives (line 176). -/
inductive IterInput
  | status (current : String) (now : Nat) (deliveryOk : Bool) (writeOk : Bool)
  | exn (e : String)
  | interrupt
deriving DecidableEq

/-- What the iteration does at its end: sleep for a number of seconds and
continue, or leave the loop (`break`). -/
inductive StepAction
  | sleep (seconds : Nat)
  | exitLoop
deriving DecidableEq

/-- The observable outcome of one loop iteration: the next state, the ending
action, the `send_telegram_notification` calls made as `(message, force)`
pairs, and whether a Telegram message was actually delivered. -/
structure StepResult where
  state : LoopState
  action : StepAction
  notifyCalls : List (String × Bool)
  delivered : Bool
deriving DecidableEq

/-- Main.py line 163: `min(60 * (2 ** consecutive_errors), 3600)`, applied
to the already-incremented counter. -/
def backoff_sleep_time (consecutiveErrors : Nat) : Nat :=
  min (60 * 2 ^ consecutiveErrors) 3600

/-- Main.py lines 160-174: update the error counter from the current status,
then either `break` (counter at `max_consecutive_errors = 5`) or sleep the
computed time. -/
def apply_backoff (s : LoopState) (current : String) : LoopState × StepAction :=
  if current = "Error" then
    let errs := s.consecutiveErrors + 1
    ({ s with consecutiveErrors := errs },
     if 5 ≤ errs then StepAction.exitLoop
     else StepAction.sleep (backoff_sleep_time errs))
  else
    ({ s with consecutiveErrors := 0 }, StepAction.sleep 300)

/-- One iteration of the `while True` body of `main` (Main.py lines 143-183).
On the normal path (lines 146-174): compare the current status with
`last_status`; if changed, notify with default `force=False`, write the
status file and update `last_status`; if unchanged, notify with
`force=True`; then apply backoff and the emergency-exit check.  The
catch-all `except Exception` (lines 179-183) increments the counter and
sleeps 60 seconds with no exit check; `KeyboardInterrupt` (lines 176-178)
breaks out. -/
def loop_iteration (s : LoopState) (inp : IterInput) : StepResult :=
  match inp with
  | IterInput.interrupt =>
    { state := s, action := StepAction.exitLoop, notifyCalls := [], delivered := false }
  | IterInput.exn _ =>
    { state := { s with consecutiveErrors := s.consecutiveErrors + 1 },
      action := StepAction.sleep 60, notifyCalls := [], delivered := false }
  | IterInput.status current now deliveryOk writeOk =>
    if some current ≠ s.lastStatus then
      let nr := send_telegram_notification current false now s.lastNotification deliveryOk
      let s1 : LoopState :=
        { lastStatus := some current,
          consecutiveErrors := s.consecutiveErrors,
          lastNotification := nr.newLast,
          statusFile := if writeOk then some current else s.statusFile }
      let (s2, act) := apply_backoff s1 current
      { state := s2, action := act, notifyCalls := [(current, false)],
        delivered := nr.delivered }
    else
      let nr := send_telegram_notification current true now s.lastNotification deliveryOk
      let s1 : LoopState := { s with lastNotification := nr.newLast }
      let (s2, act) := apply_backoff s1 current
      { state := s2, action := act, notifyCalls := [(current, true)],
        delivered := nr.delivered }

/-- Run successive loop iterations, recording each iteration's ending
action; an `exitLoop` stops the run (the `break` on line 172 or 178). -/
def run_loop (s : LoopState) : List IterInput → List StepAction
  | [] => []
  | i :: rest =>
    let r := loop_iteration s i
    match r.action with
    | StepAction.exitLoop => [StepAction.exitLoop]
    | StepAction.sleep t => StepAction.sleep t :: run_loop r.state rest

theorem charsBeginWith_iff (n h : List Char) :
    charsBeginWith n h = true ↔ ∃ t, h = n ++ t := by
  induction n generalizing h with
  | nil => simp [charsBeginWith]
  | cons a as ih =>
    cases h with
    | nil => simp [charsBeginWith]
    | cons b bs =>
      simp only [charsBeginWith, Bool.and_eq_true, beq_iff_eq, ih, List.cons_append,
        List.cons.injEq]
      constructor
      · rintro ⟨rfl, t, rfl⟩
        exact ⟨t, rfl, rfl⟩
      · rintro ⟨t, rfl, rfl⟩
        exact ⟨rfl, t, rfl⟩

theorem charsContain_iff (n h : List Char) :
    charsContain n h = true ↔ ∃ s t, h = s ++ n ++ t := by
  induction h with
  | nil =>
    simp only [charsContain, charsBeginWith_iff]
    constructor
    · rintro ⟨t, ht⟩
      exact ⟨[], t, by simpa using ht⟩
    · rintro ⟨s, t, ht⟩
      rcases List.append_eq_nil.1 ht.symm with ⟨h1, h2⟩
      rcases List.append_eq_nil.1 h1 with ⟨rfl, rfl⟩
      exact ⟨[], rfl⟩
  | cons b bs ih =>
    simp only [charsContain, Bool.or_eq_true, charsBeginWith_iff, ih]
    constructor
    · rintro (⟨t, ht⟩ | ⟨s, t, ht⟩)
      · exact ⟨[], t, by simpa using ht⟩
      · exact ⟨b :: s, t, by simp [ht]⟩
    · rintro ⟨s, t, ht⟩
      cases s with
      | nil => exact Or.inl ⟨t, by simpa using ht⟩
      | cons c cs =>
        simp only [List.cons_append, List.cons.injEq] at ht
        exact Or.inr ⟨cs, t, ht.2⟩

theorem send_attempted_eq (m : String) (force : Bool) (now : Nat) (last : Option Nat)
    (ok : Bool) :
    (send_telegram_notification m force now last ok).attempted =
      notification_eligible force now last := by
  unfold send_telegram_notification send_telegram_notification_body
  by_cases h : notification_eligible force now last = true
  · cases ok <;> simp [h]
  · rw [Bool.not_eq_true] at h
    simp [h]

theorem notification_eligible_iff (force : Bool) (now : Nat) (last : Option Nat) :
    notification_eligible force now last = true ↔
      (force = true ∨ last = none ∨ ∃ t, last = some t ∧ 1800 < now - t) := by
  cases force <;> cases last <;> simp [notification_eligible]

/-- C5: a delivery attempt is made if and only if `force` is true, or no
prior notification timestamp exists, or more than 30 minutes (1800 seconds)
have elapsed since the last recorded notification; otherwise the call is a
no-op that leaves the throttle store unchanged. -/
theorem notifier_attempts_iff_eligible (m : String) (force : Bool) (now : Nat)
    (last : Option Nat) (ok : Bool) :
    ((send_telegram_notification m force now last ok).attempted = true ↔
      (force = true ∨ last = none ∨ ∃ t, last = some t ∧ 1800 < now - t)) ∧
    (notification_eligible force now last = false →
      send_telegram_notification m force now last ok =
        { attempted := false, delivered := false, newLast := last,
          deliveredText := none }) := by
  constructor
  · rw [send_attempted_eq]
    exact notification_eligible_iff force now last
  · intro h
    unfold send_telegram_notification send_telegram_notification_body
    simp [h]

/-- Witness for C5: with `force = false` and a send 60 seconds old, the call
is a no-op. -/
theorem notifier_attempts_iff_eligible_witness :
    send_telegram_notification "Error" false 60 (some 0) true =
      { attempted := false, delivered := false, newLast := some 0,
        deliveredText := none } :=
  (notifier_attempts_iff_eligible "Error" false 60 (some 0) true).2 (by decide)

/-- C6: a failing delivery is caught (the body's raise is absorbed by the
`except` clause) and the persisted last-notification timestamp is unchanged. -/
theorem delivery_failure_caught_and_throttle_unchanged (m : String) (force : Bool)
    (now : Nat) (last : Option Nat) :
    (send_telegram_notification m force now last false).delivered = false ∧
    (send_telegram_notification m force now last false).newLast = last ∧
    (notification_eligible force now last = true →
      send_telegram_notification_body m force now last false =
        Except.error "TelegramError") := by
  unfold send_telegram_notification send_telegram_notification_body
  by_cases h : notification_eligible force now last = true
  · simp [h]
  · rw [Bool.not_eq_true] at h
    simp [h]

/-- Witness for C6 at a concrete eligible call whose delivery fails. -/
theorem delivery_failure_witness :
    (send_telegram_notification "Error" true 5 (some 1) false).delivered = false ∧
    (send_telegram_notification "Error" true 5 (some 1) false).newLast = some 1 ∧
    (notification_eligible true 5 (some 1) = true →
      send_telegram_notification_body "Error" true 5 (some 1) false =
        Except.error "TelegramError") :=
  delivery_failure_caught_and_throttle_unchanged "Error" true 5 (some 1)

/-- C9: a missing or unreadable status file reads as the `none` sentinel,
exactly like a first-ever run, without raising. -/
theorem missing_or_unreadable_status_reads_none (fs : StatusFileState)
    (h : fs = StatusFileState.absent ∨ ∃ e, fs = StatusFileState.unreadable e) :
    read_last_status fs = none := by
  rcases h with rfl | ⟨e, rfl⟩ <;> rfl

/-- Witness for C9 at the two concrete degraded file states. -/
theorem missing_or_unreadable_status_witness :
    read_last_status StatusFileState.absent = none ∧
    read_last_status (StatusFileState.unreadable "IOError") = none :=
  ⟨missing_or_unreadable_status_reads_none _ (Or.inl rfl),
   missing_or_unreadable_status_reads_none _ (Or.inr ⟨"IOError", rfl⟩)⟩

/-- C10: for each of the three status strings the formatted message is pure
ASCII, so `encode('utf-8').decode('latin-1')` is the identity on it and the
delivered text equals the template text. -/
theorem status_messages_ascii_reencode_id (m : String)
    (h : m = "Tickets Potentially Available" ∨ m = "Tickets Not Available" ∨
      m = "Error") :
    (∀ c ∈ (format_notification_text m).data, c.toNat < 128) ∧
    reencode (format_notification_text m) = format_notification_text m ∧
    (send_telegram_notification m true 0 none true).deliveredText =
      some (format_notification_text m) := by
  rcases h with rfl | rfl | rfl <;> decide

/-- Witness for C10 at the `"Error"` status string. -/
theorem status_messages_ascii_witness :
    (∀ c ∈ (format_notification_text "Error").data, c.toNat < 128) ∧
    reencode (format_notification_text "Error") = format_notification_text "Error" ∧
    (send_telegram_notification "Error" true 0 none true).deliveredText =
      some (format_notification_text "Error") :=
  status_messages_ascii_reencode_id "Error" (Or.inr (Or.inr rfl))

/-- C3: classification returns `"Tickets Potentially Available"` exactly when
the lower-cased page text contains one of the three lower-cased keywords as a
contiguous run; otherwise it returns `"Tickets Not Available"`, and the empty
text classifies as `"Tickets Not Available"`. -/
theorem classification_iff_keyword_contained (text : String) :
    (classify_page_text text = "Tickets Potentially Available" ↔
      ∃ k ∈ ticket_keywords, ∃ s t,
        (pyLower text).data = s ++ (pyLower k).data ++ t) ∧
    ((¬ ∃ k ∈ ticket_keywords, ∃ s t,
        (pyLower text).data = s ++ (pyLower k).data ++ t) →
      classify_page_text text = "Tickets Not Available") ∧
    classify_page_text "" = "Tickets Not Available" := by
  have key : (ticket_keywords.any
      (fun k => charsContain (pyLower k).data (pyLower text).data) = true) ↔
      ∃ k ∈ ticket_keywords, ∃ s t,
        (pyLower text).data = s ++ (pyLower k).data ++ t := by
    rw [List.any_eq_true]
    constructor
    · rintro ⟨k, hk, hc⟩
      exact ⟨k, hk, (charsContain_iff _ _).1 hc⟩
    · rintro ⟨k, hk, hc⟩
      exact ⟨k, hk, (charsContain_iff _ _).2 hc⟩
  refine ⟨?_, ?_, by decide⟩
  · rw [← key]
    unfold classify_page_text
    by_cases h : ticket_keywords.any
        (fun k => charsContain (pyLower k).data (pyLower text).data) = true
    · simp [h]
    · rw [Bool.not_eq_true] at h
      simp [h]
  · intro hn
    rw [← key] at hn
    unfold classify_page_text
    rcases hb : ticket_keywords.any
        (fun k => charsContain (pyLower k).data (pyLower text).data) with _ | _
    · simp [hb]
    · exact absurd hb hn

/-- Witness for C3: a text containing `BUY TICKET` (mixed case) classifies
as available. -/
theorem classification_witness :
    classify_page_text "xx Buy Ticket yy" = "Tickets Potentially Available" :=
  (classification_iff_keyword_contained "xx Buy Ticket yy").1.mpr
    ⟨"BUY TICKET", by decide, "xx ".data, " yy".data, by decide⟩

/-- C7 (amended): timeouts, connection errors, any fetch/parse exception,
and 4xx/5xx responses all yield `"Error"`, and the check always returns one
of the three status strings (no exception propagates); 2xx/3xx responses are
classified from the body text instead. -/
theorem fetch_failures_yield_error_status (r : HttpResult) :
    ((r = HttpResult.timeout ∨ r = HttpResult.connectionError ∨
      (∃ e, r = HttpResult.otherExn e) ∨
      (∃ code text, r = HttpResult.response code text ∧ 400 ≤ code ∧ code < 600)) →
      check_ticket_availability r = "Error") ∧
    (check_ticket_availability r = "Tickets Potentially Available" ∨
     check_ticket_availability r = "Tickets Not Available" ∨
     check_ticket_availability r = "Error") := by
  constructor
  · rintro (rfl | rfl | ⟨e, rfl⟩ | ⟨code, text, rfl, h1, h2⟩)
    · rfl
    · rfl
    · rfl
    · unfold check_ticket_availability check_ticket_availability_body raise_for_status
      simp [h1, h2]
  · cases r with
    | timeout => simp [check_ticket_availability, check_ticket_availability_body]
    | connectionError => simp [check_ticket_availability, check_ticket_availability_body]
    | otherExn e => simp [check_ticket_availability, check_ticket_availability_body]
    | response code text =>
      unfold check_ticket_availability check_ticket_availability_body raise_for_status
      by_cases hc : 400 ≤ code ∧ code < 600
      · simp [hc]
      · unfold classify_page_text
        by_cases hk : ticket_keywords.any
            (fun k => charsContain (pyLower k).data (pyLower text).data) = true
        · simp [hc, hk]
        · rw [Bool.not_eq_true] at hk
          simp [hc, hk]

/-- Witness for C7 at a concrete timeout. -/
theorem fetch_failures_witness :
    check_ticket_availability HttpResult.timeout = "Error" :=
  (fetch_failures_yield_error_status HttpResult.timeout).1 (Or.inl rfl)

/-- Counterexample for C7 as stated: HTTP 304 is not a 2xx status, yet the
check classifies the (empty) body as `"Tickets Not Available"`, not
`"Error"`, because `raise_for_status` only raises for 400-599. -/
theorem non2xx_not_always_error :
    304 / 100 ≠ 2 ∧
    check_ticket_availability (HttpResult.response 304 "") = "Tickets Not Available" ∧
    check_ticket_availability (HttpResult.response 304 "") ≠ "Error" := by
  decide

theorem error_status_step (s : LoopState) (now : Nat) (ok w : Bool) :
    (loop_iteration s (IterInput.status "Error" now ok w)).state.consecutiveErrors =
      s.consecutiveErrors + 1 ∧
    (loop_iteration s (IterInput.status "Error" now ok w)).action =
      (if 5 ≤ s.consecutiveErrors + 1 then StepAction.exitLoop
       else StepAction.sleep (backoff_sleep_time (s.consecutiveErrors + 1))) := by
  unfold loop_iteration apply_backoff
  by_cases h : some "Error" ≠ s.lastStatus
  · simp [h]
  · simp [h]

/-- C2 (amended): starting from a zero error counter, five consecutive
`"Error"` iterations sleep exactly 120, 240, 480 and 960 seconds for the
first four, and the fifth exits the loop before sleeping; the computed
backoff value for the fifth error is 1920 seconds but it is never slept. -/
theorem consecutive_error_backoff_and_exit (s : LoopState) (inps : List IterInput)
    (h0 : s.consecutiveErrors = 0)
    (herr : ∀ i ∈ inps, ∃ now ok w, i = IterInput.status "Error" now ok w)
    (hlen : inps.length = 5) :
    run_loop s inps =
      [StepAction.sleep 120, StepAction.sleep 240, StepAction.sleep 480,
       StepAction.sleep 960, StepAction.exitLoop] ∧
    backoff_sleep_time 5 = 1920 := by
  refine ⟨?_, by decide⟩
  rcases inps with _ | ⟨i1, rest⟩
  · simp at hlen
  rcases rest with _ | ⟨i2, rest⟩
  · simp at hlen
  rcases rest with _ | ⟨i3, rest⟩
  · simp at hlen
  rcases rest with _ | ⟨i4, rest⟩
  · simp at hlen
  rcases rest with _ | ⟨i5, rest⟩
  · simp at hlen
  rcases rest with _ | ⟨i6, rest⟩
  · obtain ⟨n1, o1, w1, rfl⟩ := herr i1 (by simp)
    obtain ⟨n2, o2, w2, rfl⟩ := herr i2 (by simp)
    obtain ⟨n3, o3, w3, rfl⟩ := herr i3 (by simp)
    obtain ⟨n4, o4, w4, rfl⟩ := herr i4 (by simp)
    obtain ⟨n5, o5, w5, rfl⟩ := herr i5 (by simp)
    have e1 := error_status_step s n1 o1 w1
    rw [h0] at e1
    have a1 : (loop_iteration s (IterInput.status "Error" n1 o1 w1)).action =
        StepAction.sleep 120 := by rw [e1.2]; decide
    have e2 := error_status_step
      (loop_iteration s (IterInput.status "Error" n1 o1 w1)).state n2 o2 w2
    rw [e1.1] at e2
    have a2 : (loop_iteration
        (loop_iteration s (IterInput.status "Error" n1 o1 w1)).state
        (IterInput.status "Error" n2 o2 w2)).action = StepAction.sleep 240 := by
      rw [e2.2]; decide
    have e3 := error_status_step
      (loop_iteration
        (loop_iteration s (IterInput.status "Error" n1 o1 w1)).state
        (IterInput.status "Error" n2 o2 w2)).state n3 o3 w3
    rw [e2.1] at e3
    have a3 : (loop_iteration
        (loop_iteration
          (loop_iteration s (IterInput.status "Error" n1 o1 w1)).state
          (IterInput.status "Error" n2 o2 w2)).state
        (IterInput.status "Error" n3 o3 w3)).action = StepAction.sleep 480 := by
      rw [e3.2]; decide
    have e4 := error_status_step
      (loop_iteration
        (loop_iteration
          (loop_iteration s (IterInput.status "Error" n1 o1 w1)).state
          (IterInput.status "Error" n2 o2 w2)).state
        (IterInput.status "Error" n3 o3 w3)).state n4 o4 w4
    rw [e3.1] at e4
    have a4 : (loop_iteration
        (loop_iteration
          (loop_iteration
            (loop_iteration s (IterInput.status "Error" n1 o1 w1)).state
            (IterInput.status "Error" n2 o2 w2)).state
          (IterInput.status "Error" n3 o3 w3)).state
        (IterInput.status "Error" n4 o4 w4)).action = StepAction.sleep 960 := by
      rw [e4.2]; decide
    have e5 := error_status_step
      (loop_iteration
        (loop_iteration
          (loop_iteration
            (loop_iteration s (IterInput.status "Error" n1 o1 w1)).state
            (IterInput.status "Error" n2 o2 w2)).state
          (IterInput.status "Error" n3 o3 w3)).state
        (IterInput.status "Error" n4 o4 w4)).state n5 o5 w5
    rw [e4.1] at e5
    have a5 : (loop_iteration
        (loop_iteration
          (loop_iteration
            (loop_iteration
              (loop_iteration s (IterInput.status "Error" n1 o1 w1)).state
              (IterInput.status "Error" n2 o2 w2)).state
            (IterInput.status "Error" n3 o3 w3)).state
          (IterInput.status "Error" n4 o4 w4)).state
        (IterInput.status "Error" n5 o5 w5)).action = StepAction.exitLoop := by
      rw [e5.2]; decide
    simp only [run_loop, a1, a2, a3, a4, a5]
  · simp at hlen

/-- Witness for C2 (amended) on a concrete five-error run. -/
theorem consecutive_error_backoff_witness :
    run_loop { lastStatus := none, consecutiveErrors := 0, lastNotification := none,
               statusFile := none }
      [IterInput.status "Error" 10 true true, IterInput.status "Error" 20 false true,
       IterInput.status "Error" 30 true false, IterInput.status "Error" 40 false false,
       IterInput.status "Error" 50 true true] =
      [StepAction.sleep 120, StepAction.sleep 240, StepAction.sleep 480,
       StepAction.sleep 960, StepAction.exitLoop] ∧
    backoff_sleep_time 5 = 1920 :=
  consecutive_error_backoff_and_exit
    { lastStatus := none, consecutiveErrors := 0, lastNotification := none,
      statusFile := none }
    [IterInput.status "Error" 10 true true, IterInput.status "Error" 20 false true,
     IterInput.status "Error" 30 true false, IterInput.status "Error" 40 false false,
     IterInput.status "Error" 50 true true]
    rfl
    (by
      intro i hi
      simp only [List.mem_cons, List.not_mem_nil, or_false] at hi
      rcases hi with rfl | rfl | rfl | rfl | rfl
      · exact ⟨10, true, true, rfl⟩
      · exact ⟨20, false, true, rfl⟩
      · exact ⟨30, true, false, rfl⟩
      · exact ⟨40, false, false, rfl⟩
      · exact ⟨50, true, true, rfl⟩)
    rfl

/-- Counterexample for C2 as stated: in a five-error run from a fresh state
the fifth iteration exits instead of sleeping 1920 seconds. -/
theorem fifth_error_exits_before_sleeping :
    run_loop { lastStatus := none, consecutiveErrors := 0, lastNotification := none,
               statusFile := none }
      (List.replicate 5 (IterInput.status "Error" 0 true true)) =
      [StepAction.sleep 120, StepAction.sleep 240, StepAction.sleep 480,
       StepAction.sleep 960, StepAction.exitLoop] ∧
    run_loop { lastStatus := none, consecutiveErrors := 0, lastNotification := none,
               statusFile := none }
      (List.replicate 5 (IterInput.status "Error" 0 true true)) ≠
      [StepAction.sleep 120, StepAction.sleep 240, StepAction.sleep 480,
       StepAction.sleep 960, StepAction.sleep 1920] := by
  decide

/-- C4 (amended): the emergency-exit check runs only on the normal path: an
`"Error"` status with the counter already at 4 makes the iteration exit, but
the catch-all exception handler increments the counter and sleeps 60 seconds
without any exit check, even when the counter thereby reaches 5. -/
theorem exit_check_only_on_status_path (s : LoopState) (e : String) (now : Nat)
    (ok w : Bool) (h : 4 ≤ s.consecutiveErrors) :
    (loop_iteration s (IterInput.exn e)).state.consecutiveErrors =
      s.consecutiveErrors + 1 ∧
    (loop_iteration s (IterInput.exn e)).action = StepAction.sleep 60 ∧
    (loop_iteration s (IterInput.status "Error" now ok w)).action =
      StepAction.exitLoop := by
  refine ⟨rfl, rfl, ?_⟩
  rw [(error_status_step s now ok w).2, if_pos (by omega)]

/-- Witness for C4 (amended) at counter 4. -/
theorem exit_check_only_on_status_path_witness :
    (loop_iteration
      { lastStatus := none, consecutiveErrors := 4, lastNotification := none,
        statusFile := none } (IterInput.exn "boom")).state.consecutiveErrors = 5 ∧
    (loop_iteration
      { lastStatus := none, consecutiveErrors := 4, lastNotification := none,
        statusFile := none } (IterInput.exn "boom")).action = StepAction.sleep 60 ∧
    (loop_iteration
      { lastStatus := none, consecutiveErrors := 4, lastNotification := none,
        statusFile := none } (IterInput.status "Error" 0 true true)).action =
      StepAction.exitLoop :=
  exit_check_only_on_status_path
    { lastStatus := none, consecutiveErrors := 4, lastNotification := none,
      statusFile := none } "boom" 0 true true (by decide)

/-- Counterexample for C4 as stated: with the counter at 4, an iteration that
hits the catch-all exception handler raises the counter to 5 yet the loop
continues with a 60-second sleep rather than exiting. -/
theorem counter_reaches_five_without_exit :
    (loop_iteration
      { lastStatus := none, consecutiveErrors := 4, lastNotification := none,
        statusFile := none } (IterInput.exn "boom")).state.consecutiveErrors = 5 ∧
    (loop_iteration
      { lastStatus := none, consecutiveErrors := 4, lastNotification := none,
        statusFile := none } (IterInput.exn "boom")).action ≠
      StepAction.exitLoop := by
  decide

/-- C8: when the last known status is `"Tickets Not Available"` and the
current classification is `"Tickets Potentially Available"`, the iteration
makes exactly one notifier call, with `force = false`, writes the new status
to the status file and updates the in-memory last status. -/
theorem transition_to_available_notifies_once_and_persists (s : LoopState)
    (now : Nat) (ok : Bool) (h : s.lastStatus = some "Tickets Not Available") :
    (loop_iteration s
      (IterInput.status "Tickets Potentially Available" now ok true)).notifyCalls =
      [("Tickets Potentially Available", false)] ∧
    (loop_iteration s
      (IterInput.status "Tickets Potentially Available" now ok true)).state.statusFile =
      some "Tickets Potentially Available" ∧
    (loop_iteration s
      (IterInput.status "Tickets Potentially Available" now ok true)).state.lastStatus =
      some "Tickets Potentially Available" := by
  have hne : some "Tickets Potentially Available" ≠ s.lastStatus := by
    rw [h]
    decide
  unfold loop_iteration apply_backoff
  simp [hne]

/-- Witness for C8 at a concrete state. -/
theorem transition_to_available_witness :
    (loop_iteration
      { lastStatus := some "Tickets Not Available", consecutiveErrors := 0,
        lastNotification := none, statusFile := some "Tickets Not Available" }
      (IterInput.status "Tickets Potentially Available" 7 true true)).notifyCalls =
      [("Tickets Potentially Available", false)] ∧
    (loop_iteration
      { lastStatus := some "Tickets Not Available", consecutiveErrors := 0,
        lastNotification := none, statusFile := some "Tickets Not Available" }
      (IterInput.status "Tickets Potentially Available" 7 true true)).state.statusFile =
      some "Tickets Potentially Available" ∧
    (loop_iteration
      { lastStatus := some "Tickets Not Available", consecutiveErrors := 0,
        lastNotification := none, statusFile := some "Tickets Not Available" }
      (IterInput.status "Tickets Potentially Available" 7 true true)).state.lastStatus =
      some "Tickets Potentially Available" :=
  transition_to_available_notifies_once_and_persists
    { lastStatus := some "Tickets Not Available", consecutiveErrors := 0,
      lastNotification := none, statusFile := some "Tickets Not Available" }
    7 true rfl

/-- C1: in an iteration whose status is unchanged and whose last successful
send is only 60 seconds old (well inside the 30-minute cooldown), the forced
heartbeat call nevertheless delivers and overwrites the throttle timestamp:
`force=True` short-circuits the cooldown check on Main.py line 121. -/
theorem forced_heartbeat_delivers_within_cooldown :
    60 - 0 < 1800 ∧
    (loop_iteration
      { lastStatus := some "Tickets Not Available", consecutiveErrors := 0,
        lastNotification := some 0, statusFile := some "Tickets Not Available" }
      (IterInput.status "Tickets Not Available" 60 true true)).notifyCalls =
      [("Tickets Not Available", true)] ∧
    (loop_iteration
      { lastStatus := some "Tickets Not Available", consecutiveErrors := 0,
        lastNotification := some 0, statusFile := some "Tickets Not Available" }
      (IterInput.status "Tickets Not Available" 60 true true)).delivered = true ∧
    (loop_iteration
      { lastStatus := some "Tickets Not Available", consecutiveErrors := 0,
        lastNotification := some 0, statusFile := some "Tickets Not Available" }
      (IterInput.status "Tickets Not Available" 60 true true)).state.lastNotification =
      some 60 := by
  decide
